import Mathlib

set_option maxHeartbeats 1000000
set_option maxRecDepth 10000

/-!
Verification development for the orbit-simulation core of the Simulations
repository (src/gravity.js, the 2-D canvas variant, and src/gravity3d.js,
the 3-D THREE.js variant).  The physics integrator, the bounded trail
buffer and the start/stop/reset run control are embedded shallowly: the
JavaScript floating-point arithmetic is modelled over the reals, the
mutable module-level globals (planet, star, orbitPath, animationFrameId)
become an explicit state record, and the per-frame animation callback
becomes a state-transition function.  `running = true` stands for
`animationFrameId !== null` (a frame request is pending).
-/

namespace Simulations

/-- Degenerate-proximity signal of the spec: both variants warn and call
stopOrbit when the two bodies are closer than the collision threshold;
the spec names this condition `ProximityError`. -/
inductive ProximityError where
  | proximity
deriving DecidableEq

namespace Gravity2D

/-- A 2-D point, used for the star position (`star = { x: 0, y: 0 }`) and
for the entries of `orbitPath`. -/
@[ext]
structure Vec2 where
  x : ℝ
  y : ℝ

/-- The moving body of gravity.js: `planet = { x, y, vx, vy }`. -/
@[ext]
structure Planet2 where
  x : ℝ
  y : ℝ
  vx : ℝ
  vy : ℝ

/-- Scaled gravitational constant of gravity.js (line 15). -/
def G_scaled : ℝ := 1000

/-- Mass of the star (gravity.js line 16). -/
def M_STAR : ℝ := 1000

/-- Mass of the planet (gravity.js line 17). -/
def M_PLANET : ℝ := 1

/-- Fixed simulation time step of gravity.js (line 19). -/
def dt : ℝ := 0.005

/-- Initial planet state `{ x: 150, y: 0, vx: 0, vy: 2.5 }` (line 21),
restored verbatim by resetOrbit (line 204). -/
def initialPlanet : Planet2 := ⟨150, 0, 0, 2.5⟩

/-- Fixed star position `{ x: 0, y: 0 }` (line 22). -/
def initialStar : Vec2 := ⟨0, 0⟩

/-- Distance from the planet to the star, as updateOrbit computes it
(lines 123-126): `dist = sqrt(dx*dx + dy*dy)` with `d = star - planet`. -/
noncomputable def planetDist (star : Vec2) (p : Planet2) : ℝ :=
  Real.sqrt ((star.x - p.x) * (star.x - p.x) + (star.y - p.y) * (star.y - p.y))

/-- The physics part of updateOrbit (gravity.js lines 121-151), with the
simulation constants as explicit parameters (the source fixes them to
`G_scaled`, `M_STAR`, `M_PLANET`, `dt`).  The degenerate branch
(`dist < 1`, lines 128-132) is returned as the spec's `ProximityError`
instead of performing the warn-and-stop side effect; the successful
branch returns the integrated body. -/
noncomputable def stepOrbitP (g mS mP dtv : ℝ) (star : Vec2) (p : Planet2) :
    Except ProximityError Planet2 :=
  let dx := star.x - p.x
  let dy := star.y - p.y
  let distSq := dx * dx + dy * dy
  let dist := Real.sqrt distSq
  if dist < 1 then .error .proximity
  else
    let forceMag := g * mS * mP / distSq
    let forceX := forceMag * (dx / dist)
    let forceY := forceMag * (dy / dist)
    let accelX := forceX / mP
    let accelY := forceY / mP
    let vx' := p.vx + accelX * dtv
    let vy' := p.vy + accelY * dtv
    .ok ⟨p.x + vx' * dtv, p.y + vy' * dtv, vx', vy'⟩

/-- updateOrbit's physics with the constants the source actually uses. -/
noncomputable def stepOrbit : Vec2 → Planet2 → Except ProximityError Planet2 :=
  stepOrbitP G_scaled M_STAR M_PLANET dt

/-- Trail append of updateOrbit (gravity.js lines 154-157):
`orbitPath.push(point)` followed by `orbitPath.shift()` whenever the
length exceeds 1000. -/
def pushTrail {α : Type} (path : List α) (pt : α) : List α :=
  if (path ++ [pt]).length > 1000 then (path ++ [pt]).tail else path ++ [pt]

/-- The mutable module state of gravity.js: `planet`, `star`, `orbitPath`
and `animationFrameId` (modelled as the Boolean `running`:
`animationFrameId !== null`). -/
@[ext]
structure SimState2 where
  planet : Planet2
  star : Vec2
  orbitPath : List Vec2
  running : Bool

/-- stopOrbit (gravity.js lines 194-200): cancel the pending frame request
and null out `animationFrameId`. -/
def stopOrbit (s : SimState2) : SimState2 := { s with running := false }

/-- updateOrbit (gravity.js lines 121-158) as a state transition: on the
proximity guard it calls stopOrbit and returns with planet and trail
untouched; otherwise it writes the integrated planet and appends the new
position to the trail. -/
noncomputable def updateOrbit (s : SimState2) : SimState2 :=
  match stepOrbit s.star s.planet with
  | .error _ => stopOrbit s
  | .ok p' => { s with planet := p', orbitPath := pushTrail s.orbitPath ⟨p'.x, p'.y⟩ }

/-- gameLoop (gravity.js lines 161-181): clears and redraws the canvas
(out of scope), runs updateOrbit, and then unconditionally re-requests
the next animation frame (`animationFrameId = requestAnimationFrame(gameLoop)`,
line 180) -- even when updateOrbit's proximity branch has just called
stopOrbit. -/
noncomputable def gameLoop (s : SimState2) : SimState2 :=
  { updateOrbit s with running := true }

/-- One tick of the host's per-frame driver: the browser fires gameLoop
exactly when a frame request is pending. -/
noncomputable def frame (s : SimState2) : SimState2 :=
  if s.running then gameLoop s else s

/-- resetOrbit (gravity.js lines 202-217): stopOrbit, restore the initial
planet state, clear the trail (the rest of the function only redraws). -/
def resetOrbit (s : SimState2) : SimState2 :=
  { stopOrbit s with planet := initialPlanet, orbitPath := [] }

/-- startOrbit (gravity.js lines 184-192): a no-op while a frame request
is pending; otherwise resetOrbit first when the trail is empty, then
request the first frame. -/
def startOrbit (s : SimState2) : SimState2 :=
  if s.running then s
  else if s.orbitPath.length = 0 then { resetOrbit s with running := true }
  else { s with running := true }

/-- Semi-implicit Euler step exactly as claim C1 and spec section 4.1 word
it for the 2-D variant: acceleration `= (G * M_central / distance^2) * (d / distance)`,
then `velocity' = velocity + acceleration * dt`, then
`position' = position + velocity' * dt` (the position update uses the
already-updated velocity). -/
noncomputable def specStep2 (star : Vec2) (p : Planet2) : Planet2 :=
  let d := planetDist star p
  let ax := G_scaled * M_STAR / d ^ 2 * ((star.x - p.x) / d)
  let ay := G_scaled * M_STAR / d ^ 2 * ((star.y - p.y) / d)
  let vx' := p.vx + ax * dt
  let vy' := p.vy + ay * dt
  ⟨p.x + vx' * dt, p.y + vy' * dt, vx', vy'⟩

/-- The 2-D step computed with the 3-D variant's direct acceleration
formula (gravity3d.js line 178: `a = (G * M_STAR / distSq) * (diff / dist)`,
no planet mass), used to compare the two variants' computations in C9. -/
noncomputable def stepOrbitDirect (g mS dtv : ℝ) (star : Vec2) (p : Planet2) :
    Except ProximityError Planet2 :=
  let dx := star.x - p.x
  let dy := star.y - p.y
  let distSq := dx * dx + dy * dy
  let dist := Real.sqrt distSq
  if dist < 1 then .error .proximity
  else
    let accelX := dx / dist * (g * mS / distSq)
    let accelY := dy / dist * (g * mS / distSq)
    let vx' := p.vx + accelX * dtv
    let vy' := p.vy + accelY * dtv
    .ok ⟨p.x + vx' * dtv, p.y + vy' * dtv, vx', vy'⟩

/-- A running state whose planet coincides with the star: the proximity
guard fires on the very next tick. -/
def collidedState2 : SimState2 := ⟨⟨0, 0, 0, 0⟩, ⟨0, 0⟩, [], true⟩

end Gravity2D

namespace Gravity3D

/-- A THREE.Vector3 value. -/
@[ext]
structure Vec3 where
  x : ℝ
  y : ℝ
  z : ℝ

/-- `new THREE.Vector3().subVectors(u, v)`. -/
def Vec3.sub (u v : Vec3) : Vec3 := ⟨u.x - v.x, u.y - v.y, u.z - v.z⟩

/-- `v.lengthSq()`. -/
def Vec3.lengthSq (v : Vec3) : ℝ := v.x * v.x + v.y * v.y + v.z * v.z

/-- `v.length()`. -/
noncomputable def Vec3.length (v : Vec3) : ℝ := Real.sqrt v.lengthSq

/-- `v.normalize()`: componentwise division by the length (the guard in
updatePhysics keeps the length away from zero wherever this is used). -/
noncomputable def Vec3.normalize (v : Vec3) : Vec3 :=
  ⟨v.x / v.length, v.y / v.length, v.z / v.length⟩

/-- `v.multiplyScalar(c)`. -/
def Vec3.smul (c : ℝ) (v : Vec3) : Vec3 := ⟨c * v.x, c * v.y, c * v.z⟩

/-- `u.addScaledVector(v, c)`. -/
def Vec3.addScaled (u v : Vec3) (c : ℝ) : Vec3 :=
  ⟨u.x + v.x * c, u.y + v.y * c, u.z + v.z * c⟩

/-- Gravitational constant of gravity3d.js (line 29). -/
def G : ℝ := 50

/-- Star mass (gravity3d.js line 30). -/
def M_STAR : ℝ := 1000

/-- Planet mass (gravity3d.js line 31, unused by updatePhysics). -/
def M_PLANET : ℝ := 1

/-- Fixed time step (gravity3d.js line 32). -/
def dt : ℝ := 0.01

/-- `initialPlanetPos = new THREE.Vector3(150, 0, 0)` (line 35). -/
def initialPlanetPos : Vec3 := ⟨150, 0, 0⟩

/-- `initialPlanetVel = new THREE.Vector3(0, 15, 5)` (line 36). -/
def initialPlanetVel : Vec3 := ⟨0, 15, 5⟩

/-- `starPos = new THREE.Vector3(0, 0, 0)` (line 37). -/
def starPos : Vec3 := ⟨0, 0, 0⟩

/-- The moving body of gravity3d.js: `planet = { pos, vel, acc }`
(lines 39-43). -/
@[ext]
structure Planet3 where
  pos : Vec3
  vel : Vec3
  acc : Vec3

/-- The planet state installed by resetOrbit (lines 276-278). -/
def initialPlanet3 : Planet3 := ⟨initialPlanetPos, initialPlanetVel, ⟨0, 0, 0⟩⟩

/-- Distance from planet to star as updatePhysics computes it:
the length of `diff = starPos - planet.pos`. -/
noncomputable def planetDist3 (sp : Vec3) (p : Planet3) : ℝ := (Vec3.sub sp p.pos).length

/-- updatePhysics (gravity3d.js lines 169-181) on the planet record, with
the collision branch (`distSq < 25`, lines 172-176) returned as
`ProximityError` instead of the warn-and-stop side effect. -/
noncomputable def updatePhysicsStep (sp : Vec3) (p : Planet3) :
    Except ProximityError Planet3 :=
  let diff := Vec3.sub sp p.pos
  let distSq := diff.lengthSq
  if distSq < 25 then .error .proximity
  else
    let acc := Vec3.smul (G * M_STAR / distSq) diff.normalize
    let vel := Vec3.addScaled p.vel acc dt
    let pos := Vec3.addScaled p.pos vel dt
    .ok ⟨pos, vel, acc⟩

/-- Trail append of updateVisuals (gravity3d.js lines 189-209) on the
logical list of drawn points `positions[0 .. orbitDrawCount)`: append
while below MAX_ORBIT_POINTS = 1000, otherwise shift every point left and
write the new point at index 999. -/
def pushTrail3 {α : Type} (points : List α) (pt : α) : List α :=
  if points.length < 1000 then points ++ [pt] else points.tail ++ [pt]

/-- The mutable state of gravity3d.js: `planet`, the star position, the
orbit-trail points and `animationFrameId` (as `running`). -/
@[ext]
structure SimState3 where
  planet : Planet3
  starPos : Vec3
  orbitPoints : List Vec3
  running : Bool

/-- stopOrbit (gravity3d.js lines 266-272). -/
def stopOrbit (s : SimState3) : SimState3 := { s with running := false }

/-- updatePhysics as a state transition: the collision branch calls
stopOrbit (cancelling the frame request the enclosing animate just made)
and leaves the planet untouched. -/
noncomputable def updatePhysics (s : SimState3) : SimState3 :=
  match updatePhysicsStep s.starPos s.planet with
  | .error _ => stopOrbit s
  | .ok p' => { s with planet := p' }

/-- updateVisuals (gravity3d.js lines 184-213): appends the current planet
position to the trail (the mesh and grid updates are out of scope). -/
def updateVisuals (s : SimState3) : SimState3 :=
  { s with orbitPoints := pushTrail3 s.orbitPoints s.planet.pos }

/-- animate (gravity3d.js lines 250-256): request the next frame FIRST
(`animationFrameId = requestAnimationFrame(animate)`), then updatePhysics
(whose collision branch cancels that fresh request), then updateVisuals. -/
noncomputable def animate (s : SimState3) : SimState3 :=
  updateVisuals (updatePhysics { s with running := true })

/-- One tick of the per-frame driver: animate fires exactly when a frame
request is pending. -/
noncomputable def frame (s : SimState3) : SimState3 :=
  if s.running then animate s else s

/-- startOrbit (gravity3d.js lines 259-264): calls animate directly when
no frame request is pending. -/
noncomputable def startOrbit (s : SimState3) : SimState3 :=
  if s.running then s else animate s

/-- resetOrbit (gravity3d.js lines 274-292): stopOrbit, restore the
initial planet (position, velocity, zero acceleration), clear the trail
(`orbitDrawCount = 0`). -/
def resetOrbit (s : SimState3) : SimState3 :=
  { stopOrbit s with planet := initialPlanet3, orbitPoints := [] }

/-- Semi-implicit Euler step exactly as claim C1 words it for the 3-D
variant: acceleration `= (G * M_central / distance^2) * (d / distance)`,
`velocity' = velocity + acceleration * dt`,
`position' = position + velocity' * dt`. -/
noncomputable def specStep3 (sp : Vec3) (p : Planet3) : Planet3 :=
  let d := planetDist3 sp p
  let a : Vec3 := ⟨G * M_STAR / d ^ 2 * ((sp.x - p.pos.x) / d),
                   G * M_STAR / d ^ 2 * ((sp.y - p.pos.y) / d),
                   G * M_STAR / d ^ 2 * ((sp.z - p.pos.z) / d)⟩
  let v : Vec3 := ⟨p.vel.x + a.x * dt, p.vel.y + a.y * dt, p.vel.z + a.z * dt⟩
  ⟨⟨p.pos.x + v.x * dt, p.pos.y + v.y * dt, p.pos.z + v.z * dt⟩, v, a⟩

/-- A running 3-D state whose planet coincides with the star. -/
def collidedState3 : SimState3 :=
  ⟨⟨⟨0, 0, 0⟩, ⟨0, 0, 0⟩, ⟨0, 0, 0⟩⟩, ⟨0, 0, 0⟩, [], true⟩

end Gravity3D

open Gravity2D

theorem pushTrail_length_le {α : Type} (l : List α) (a : α) (h : l.length ≤ 1000) :
    (pushTrail l a).length ≤ 1000 := by
  unfold pushTrail
  split
  · next hgt => simp only [List.length_tail, List.length_append, List.length_singleton] at *; omega
  · next hle => simp only [List.length_append, List.length_singleton, List.length_nil, List.length_cons] at *; omega

theorem pushTrail3_length_le {α : Type} (l : List α) (a : α) (h : l.length ≤ 1000) :
    (Gravity3D.pushTrail3 l a).length ≤ 1000 := by
  unfold Gravity3D.pushTrail3
  split
  · next hlt => simp only [List.length_append, List.length_singleton, List.length_nil, List.length_cons] at *; omega
  · next hge => simp only [List.length_append, List.length_singleton, List.length_nil, List.length_cons, List.length_tail] at *; omega

theorem foldl_pushTrail_drop {α : Type} (pts : List α) :
    ∀ init : List α, init.length ≤ 1000 →
      List.foldl pushTrail init pts =
        (init ++ pts).drop (init.length + pts.length - 1000) := by
  induction pts with
  | nil =>
      intro init h
      rw [List.foldl_nil, List.append_nil, List.length_nil, Nat.add_zero,
        Nat.sub_eq_zero_of_le h, List.drop_zero]
  | cons a pts ih =>
      intro init h
      rcases Nat.lt_or_ge init.length 1000 with h1 | h1
      · have hp : pushTrail init a = init ++ [a] := by
          unfold pushTrail
          rw [if_neg]
          simp only [List.length_append, List.length_singleton, List.length_nil, List.length_cons]
          omega
        rw [List.foldl_cons, hp,
          ih (init ++ [a]) (by simp only [List.length_append, List.length_singleton, List.length_nil, List.length_cons]; omega)]
        have e1 : (init ++ [a]).length + pts.length - 1000 =
            init.length + (a :: pts).length - 1000 := by
          simp only [List.length_append, List.length_singleton, List.length_nil, List.length_cons]
          omega
        rw [e1, List.append_assoc, List.singleton_append]
      · have h2 : init.length = 1000 := Nat.le_antisymm h h1
        obtain ⟨b, init2, rfl⟩ : ∃ b t, init = b :: t := by
          cases init with
          | nil => simp at h2
          | cons b t => exact ⟨b, t, rfl⟩
        have h2' : init2.length = 999 := by
          simp only [List.length_cons] at h2
          omega
        have hp : pushTrail (b :: init2) a = init2 ++ [a] := by
          unfold pushTrail
          rw [if_pos]
          · rw [List.cons_append, List.tail_cons]
          · simp only [List.cons_append, List.length_cons, List.length_append,
              List.length_singleton]
            omega
        rw [List.foldl_cons, hp,
          ih (init2 ++ [a]) (by simp only [List.length_append, List.length_singleton, List.length_nil, List.length_cons]; omega)]
        have e1 : (init2 ++ [a]).length + pts.length - 1000 = pts.length := by
          simp only [List.length_append, List.length_singleton, List.length_nil, List.length_cons]
          omega
        have e2 : (b :: init2).length + (a :: pts).length - 1000 = pts.length + 1 := by
          simp only [List.length_cons]
          omega
        rw [e1, e2, List.cons_append, List.drop_succ_cons, List.append_assoc,
          List.singleton_append]

theorem pushTrail3_eq_pushTrail {α : Type} (l : List α) (a : α) (h : l.length ≤ 1000) :
    Gravity3D.pushTrail3 l a = pushTrail l a := by
  unfold Gravity3D.pushTrail3 pushTrail
  rcases Nat.lt_or_ge l.length 1000 with h1 | h1
  · rw [if_pos h1, if_neg]
    simp only [List.length_append, List.length_singleton, List.length_nil, List.length_cons]
    omega
  · have h2 : l.length = 1000 := Nat.le_antisymm h h1
    obtain ⟨b, t, rfl⟩ : ∃ b t, l = b :: t := by
      cases l with
      | nil => simp at h2
      | cons b t => exact ⟨b, t, rfl⟩
    have h2' : t.length = 999 := by
      simp only [List.length_cons] at h2
      omega
    rw [if_neg (by simp only [List.length_cons]; omega), if_pos]
    · rw [List.cons_append, List.tail_cons, List.tail_cons]
    · simp only [List.cons_append, List.length_cons, List.length_append,
        List.length_singleton]
      omega

theorem foldl_pushTrail3_eq {α : Type} (pts : List α) :
    ∀ init : List α, init.length ≤ 1000 →
      List.foldl Gravity3D.pushTrail3 init pts = List.foldl pushTrail init pts := by
  induction pts with
  | nil => intro init _; rfl
  | cons a pts ih =>
      intro init h
      rw [List.foldl_cons, List.foldl_cons, pushTrail3_eq_pushTrail init a h,
        ih (pushTrail init a) (pushTrail_length_le init a h)]

/-- C3: starting from an empty trail buffer of capacity 1000 and pushing
`1000 + k` points (k ≥ 1) leaves the buffer containing exactly the last
1000 points pushed, in push order (the buffer list is iterated
front-to-back, index 0 = oldest, by the polyline renderers), in both the
2-D (`pushTrail`) and 3-D (`pushTrail3`) variants. -/
theorem trailBuffer_fifo_window {α : Type} (k : ℕ) (pts : List α)
    (hk : 1 ≤ k) (hlen : pts.length = 1000 + k) :
    List.foldl pushTrail [] pts = pts.drop k
    ∧ (List.foldl pushTrail [] pts).length = 1000
    ∧ List.foldl Gravity3D.pushTrail3 [] pts = pts.drop k := by
  have h0 := foldl_pushTrail_drop pts [] (by simp)
  simp only [List.nil_append, List.length_nil, Nat.zero_add] at h0
  rw [hlen, show 1000 + k - 1000 = k by omega] at h0
  refine ⟨h0, ?_, ?_⟩
  · rw [h0, List.length_drop, hlen]
    omega
  · rw [foldl_pushTrail3_eq pts [] (by simp), h0]

theorem sqrt_twentyfive : Real.sqrt 25 = 5 := by
  rw [show (25 : ℝ) = 5 ^ 2 by norm_num, Real.sqrt_sq (by norm_num : (0 : ℝ) ≤ 5)]

theorem planetDist_initial : planetDist initialStar initialPlanet = 150 := by
  simp only [planetDist, initialStar, initialPlanet]
  rw [show ((0 : ℝ) - 150) * ((0 : ℝ) - 150) + ((0 : ℝ) - 0) * ((0 : ℝ) - 0) = 150 ^ 2 by
      norm_num,
    Real.sqrt_sq (by norm_num : (0 : ℝ) ≤ 150)]

theorem planetDist3_initial :
    Gravity3D.planetDist3 Gravity3D.starPos Gravity3D.initialPlanet3 = 150 := by
  simp only [Gravity3D.planetDist3, Gravity3D.Vec3.length, Gravity3D.Vec3.sub,
    Gravity3D.Vec3.lengthSq, Gravity3D.starPos, Gravity3D.initialPlanet3,
    Gravity3D.initialPlanetPos]
  rw [show ((0 : ℝ) - 150) * ((0 : ℝ) - 150) + ((0 : ℝ) - 0) * ((0 : ℝ) - 0) +
        ((0 : ℝ) - 0) * ((0 : ℝ) - 0) = 150 ^ 2 by norm_num,
    Real.sqrt_sq (by norm_num : (0 : ℝ) ≤ 150)]

/-- C1: for every body state at or above the collision threshold, one call
to step produces exactly the semi-implicit Euler result, with
acceleration `(G * M_central / distance^2) * (d / distance)`, the velocity
updated first and the position updated with the already-updated velocity,
in both the 2-D variant (threshold 1) and the 3-D variant
(threshold sqrt 25). -/
theorem orbit_step_semi_implicit_euler (star : Vec2) (p : Planet2)
    (sp : Gravity3D.Vec3) (q : Gravity3D.Planet3)
    (h2 : 1 ≤ planetDist star p)
    (h3 : Real.sqrt 25 ≤ Gravity3D.planetDist3 sp q) :
    stepOrbit star p = .ok (specStep2 star p)
    ∧ Gravity3D.updatePhysicsStep sp q = .ok (Gravity3D.specStep3 sp q) := by
  constructor
  · simp only [planetDist] at h2
    have hq0 : 0 ≤ (star.x - p.x) * (star.x - p.x) + (star.y - p.y) * (star.y - p.y) :=
      add_nonneg (mul_self_nonneg _) (mul_self_nonneg _)
    have hsq := Real.sq_sqrt hq0
    simp only [stepOrbit, stepOrbitP, specStep2, planetDist, M_PLANET]
    rw [if_neg (not_lt.mpr h2)]
    simp only [Except.ok.injEq, Planet2.mk.injEq]
    rw [hsq]
    refine ⟨by ring, by ring, by ring, by ring⟩
  · simp only [Gravity3D.planetDist3, Gravity3D.Vec3.length, Gravity3D.Vec3.sub,
      Gravity3D.Vec3.lengthSq] at h3
    have hq0 : 0 ≤ (sp.x - q.pos.x) * (sp.x - q.pos.x) + (sp.y - q.pos.y) * (sp.y - q.pos.y) +
        (sp.z - q.pos.z) * (sp.z - q.pos.z) :=
      add_nonneg (add_nonneg (mul_self_nonneg _) (mul_self_nonneg _)) (mul_self_nonneg _)
    have h25 : ¬ ((sp.x - q.pos.x) * (sp.x - q.pos.x) + (sp.y - q.pos.y) * (sp.y - q.pos.y) +
        (sp.z - q.pos.z) * (sp.z - q.pos.z) < 25) := by
      rw [not_lt]
      exact (Real.sqrt_le_sqrt_iff hq0).mp h3
    have hsq := Real.sq_sqrt hq0
    simp only [Gravity3D.updatePhysicsStep, Gravity3D.specStep3, Gravity3D.planetDist3,
      Gravity3D.Vec3.sub, Gravity3D.Vec3.lengthSq, Gravity3D.Vec3.length,
      Gravity3D.Vec3.normalize, Gravity3D.Vec3.smul, Gravity3D.Vec3.addScaled]
    rw [if_neg h25]
    simp only [Except.ok.injEq, Gravity3D.Planet3.mk.injEq, Gravity3D.Vec3.mk.injEq]
    rw [hsq]
    and_intros <;> ring

/-- Witness for C1 at the initial body states of both variants
(distance 150 from the star). -/
theorem orbit_step_semi_implicit_euler_witness :
    (1 ≤ planetDist initialStar initialPlanet
      ∧ Real.sqrt 25 ≤ Gravity3D.planetDist3 Gravity3D.starPos Gravity3D.initialPlanet3)
    ∧ (stepOrbit initialStar initialPlanet = .ok (specStep2 initialStar initialPlanet)
       ∧ Gravity3D.updatePhysicsStep Gravity3D.starPos Gravity3D.initialPlanet3 =
           .ok (Gravity3D.specStep3 Gravity3D.starPos Gravity3D.initialPlanet3)) := by
  have h2 : 1 ≤ planetDist initialStar initialPlanet := by
    rw [planetDist_initial]; norm_num
  have h3 : Real.sqrt 25 ≤ Gravity3D.planetDist3 Gravity3D.starPos Gravity3D.initialPlanet3 := by
    rw [planetDist3_initial, sqrt_twentyfive]; norm_num
  exact ⟨⟨h2, h3⟩, orbit_step_semi_implicit_euler _ _ _ _ h2 h3⟩

/-- C2: for every state whose distance to the central mass is below the
collision threshold (1 in the 2-D variant, sqrt 25 in the 3-D variant),
the step signals ProximityError without integrating, and the body is
unchanged by that tick. -/
theorem step_proximity_guard (s2 : SimState2) (s3 : Gravity3D.SimState3)
    (h2 : planetDist s2.star s2.planet < 1)
    (h3 : Gravity3D.planetDist3 s3.starPos s3.planet < Real.sqrt 25) :
    stepOrbit s2.star s2.planet = .error .proximity
    ∧ (updateOrbit s2).planet = s2.planet
    ∧ (updateOrbit s2).orbitPath = s2.orbitPath
    ∧ Gravity3D.updatePhysicsStep s3.starPos s3.planet = .error .proximity
    ∧ (Gravity3D.updatePhysics s3).planet = s3.planet := by
  have herr2 : stepOrbit s2.star s2.planet = .error .proximity := by
    simp only [planetDist] at h2
    simp only [stepOrbit, stepOrbitP]
    rw [if_pos h2]
  have herr3 : Gravity3D.updatePhysicsStep s3.starPos s3.planet = .error .proximity := by
    simp only [Gravity3D.planetDist3, Gravity3D.Vec3.length, Gravity3D.Vec3.sub,
      Gravity3D.Vec3.lengthSq] at h3
    have hq0 : 0 ≤ (s3.starPos.x - s3.planet.pos.x) * (s3.starPos.x - s3.planet.pos.x) +
        (s3.starPos.y - s3.planet.pos.y) * (s3.starPos.y - s3.planet.pos.y) +
        (s3.starPos.z - s3.planet.pos.z) * (s3.starPos.z - s3.planet.pos.z) :=
      add_nonneg (add_nonneg (mul_self_nonneg _) (mul_self_nonneg _)) (mul_self_nonneg _)
    have h25 := (Real.sqrt_lt_sqrt_iff hq0).mp h3
    simp only [Gravity3D.updatePhysicsStep, Gravity3D.Vec3.sub, Gravity3D.Vec3.lengthSq]
    rw [if_pos h25]
  refine ⟨herr2, ?_, ?_, herr3, ?_⟩
  · simp [updateOrbit, herr2, stopOrbit]
  · simp [updateOrbit, herr2, stopOrbit]
  · simp [Gravity3D.updatePhysics, herr3, Gravity3D.stopOrbit]

/-- Witness for C2 at running states whose planet coincides with the
star (distance 0). -/
theorem step_proximity_guard_witness :
    (planetDist collidedState2.star collidedState2.planet < 1
      ∧ Gravity3D.planetDist3 Gravity3D.collidedState3.starPos
          Gravity3D.collidedState3.planet < Real.sqrt 25)
    ∧ (stepOrbit collidedState2.star collidedState2.planet = .error .proximity
       ∧ (updateOrbit collidedState2).planet = collidedState2.planet
       ∧ (updateOrbit collidedState2).orbitPath = collidedState2.orbitPath
       ∧ Gravity3D.updatePhysicsStep Gravity3D.collidedState3.starPos
           Gravity3D.collidedState3.planet = .error .proximity
       ∧ (Gravity3D.updatePhysics Gravity3D.collidedState3).planet =
           Gravity3D.collidedState3.planet) := by
  have h2 : planetDist collidedState2.star collidedState2.planet < 1 := by
    simp only [collidedState2, planetDist]
    norm_num [Real.sqrt_zero]
  have h3 : Gravity3D.planetDist3 Gravity3D.collidedState3.starPos
      Gravity3D.collidedState3.planet < Real.sqrt 25 := by
    simp only [Gravity3D.collidedState3, Gravity3D.planetDist3, Gravity3D.Vec3.length,
      Gravity3D.Vec3.sub, Gravity3D.Vec3.lengthSq]
    rw [sqrt_twentyfive]
    norm_num [Real.sqrt_zero]
  exact ⟨⟨h2, h3⟩, step_proximity_guard collidedState2 Gravity3D.collidedState3 h2 h3⟩

/-- Witness for C3 at capacity + 1 pushes of a concrete point. -/
theorem trailBuffer_fifo_window_witness :
    (1 ≤ 1 ∧ (List.replicate 1001 true).length = 1000 + 1)
    ∧ (List.foldl pushTrail [] (List.replicate 1001 true) = (List.replicate 1001 true).drop 1
       ∧ (List.foldl pushTrail [] (List.replicate 1001 true)).length = 1000
       ∧ List.foldl Gravity3D.pushTrail3 [] (List.replicate 1001 true) =
           (List.replicate 1001 true).drop 1) :=
  ⟨⟨le_refl 1, by simp⟩,
    trailBuffer_fifo_window 1 (List.replicate 1001 true) (le_refl 1) (by simp)⟩

/-- C4: the spec's concrete scenario.  Central mass 1000 at the origin,
G = 50, dt = 0.01, body at (150,0) with velocity (0,2.5) in 2-D (the 2-D
integration run with the scenario's constants; gravity.js itself hardwires
G_scaled = 1000 and dt = 0.005) and at (150,0,0) with velocity (0,0,15)
in 3-D (these ARE gravity3d.js's constants): after exactly one step the
velocity is the initial velocity plus `(50 * 1000 / 150^2) * dt` in the
unit direction from the body to the central mass, i.e. its x-component
becomes exactly -1/45, which agrees with -0.022222 to 6 decimal places. -/
theorem concrete_scenario_one_step :
    stepOrbitP 50 1000 M_PLANET 0.01 ⟨0, 0⟩ ⟨150, 0, 0, 2.5⟩ =
      .ok ⟨150 - 1 / 4500, 1 / 40, -(1 / 45), 2.5⟩
    ∧ Gravity3D.updatePhysicsStep ⟨0, 0, 0⟩ ⟨⟨150, 0, 0⟩, ⟨0, 0, 15⟩, ⟨0, 0, 0⟩⟩ =
      .ok ⟨⟨150 - 1 / 4500, 0, 3 / 20⟩, ⟨-(1 / 45), 0, 15⟩, ⟨-(20 / 9), 0, 0⟩⟩
    ∧ (-(1 / 45) : ℝ) = 0 + 50 * 1000 / 150 ^ 2 * 0.01 * (-1)
    ∧ |(-(1 / 45) : ℝ) - (-0.022222)| < 1 / 1000000 := by
  have hs : Real.sqrt (((0 : ℝ) - 150) * ((0 : ℝ) - 150) + ((0 : ℝ) - 0) * ((0 : ℝ) - 0))
      = 150 := by
    rw [show ((0 : ℝ) - 150) * ((0 : ℝ) - 150) + ((0 : ℝ) - 0) * ((0 : ℝ) - 0) = 150 ^ 2 by
        norm_num,
      Real.sqrt_sq (by norm_num : (0 : ℝ) ≤ 150)]
  have hs3 : Real.sqrt (((0 : ℝ) - 150) * ((0 : ℝ) - 150) + ((0 : ℝ) - 0) * ((0 : ℝ) - 0) +
      ((0 : ℝ) - 0) * ((0 : ℝ) - 0)) = 150 := by
    rw [show ((0 : ℝ) - 150) * ((0 : ℝ) - 150) + ((0 : ℝ) - 0) * ((0 : ℝ) - 0) +
          ((0 : ℝ) - 0) * ((0 : ℝ) - 0) = 150 ^ 2 by norm_num,
      Real.sqrt_sq (by norm_num : (0 : ℝ) ≤ 150)]
  refine ⟨?_, ?_, by norm_num, ?_⟩
  · simp only [stepOrbitP, M_PLANET]
    rw [hs, if_neg (by norm_num : ¬ (150 : ℝ) < 1)]
    simp only [Except.ok.injEq, Planet2.mk.injEq]
    norm_num
  · simp only [Gravity3D.updatePhysicsStep, Gravity3D.Vec3.sub, Gravity3D.Vec3.lengthSq,
      Gravity3D.Vec3.normalize, Gravity3D.Vec3.length, Gravity3D.Vec3.smul,
      Gravity3D.Vec3.addScaled, Gravity3D.G, Gravity3D.M_STAR, Gravity3D.dt]
    rw [hs3, if_neg (by norm_num :
      ¬ ((0 : ℝ) - 150) * ((0 : ℝ) - 150) + ((0 : ℝ) - 0) * ((0 : ℝ) - 0) +
          ((0 : ℝ) - 0) * ((0 : ℝ) - 0) < 25)]
    simp only [Except.ok.injEq, Gravity3D.Planet3.mk.injEq, Gravity3D.Vec3.mk.injEq]
    norm_num
  · rw [abs_lt]
    constructor <;> norm_num

/-- C9: the 2-D step is independent of the planet mass, because the force
magnitude carries M_PLANET as a factor and the acceleration divides by
M_PLANET again; the computation therefore equals the 3-D variant's direct
acceleration formula `a = G * M_STAR / distSq` applied to the unit
direction. -/
theorem step_independent_of_planet_mass (g mS mP dtv : ℝ) (star : Vec2) (p : Planet2)
    (hm : 0 < mP) (hd : 1 ≤ planetDist star p) :
    stepOrbitP g mS mP dtv star p = stepOrbitP g mS 1 dtv star p
    ∧ stepOrbitP g mS mP dtv star p = stepOrbitDirect g mS dtv star p := by
  have hm' : mP ≠ 0 := ne_of_gt hm
  simp only [planetDist] at hd
  have hneg := not_lt.mpr hd
  have key : ∀ q dd x : ℝ, g * mS * mP / q * (x / dd) / mP = x / dd * (g * mS / q) := by
    intro q dd x
    have h1 : g * mS * mP / q * (x / dd) / mP = x / dd * (g * mS / q) * (mP / mP) := by
      ring
    rw [h1, div_self hm', mul_one]
  constructor
  · simp only [stepOrbitP]
    rw [if_neg hneg, if_neg hneg]
    simp only [Except.ok.injEq, Planet2.mk.injEq]
    rw [key, key]
    refine ⟨by ring, by ring, by ring, by ring⟩
  · simp only [stepOrbitP, stepOrbitDirect]
    rw [if_neg hneg, if_neg hneg]
    simp only [Except.ok.injEq, Planet2.mk.injEq]
    rw [key, key]
    refine ⟨by ring, by ring, by ring, by ring⟩

/-- Witness for C9 at planet mass 2 and the initial body state. -/
theorem step_independent_of_planet_mass_witness :
    ((0 : ℝ) < 2 ∧ 1 ≤ planetDist initialStar initialPlanet)
    ∧ (stepOrbitP G_scaled M_STAR 2 dt initialStar initialPlanet =
         stepOrbitP G_scaled M_STAR 1 dt initialStar initialPlanet
       ∧ stepOrbitP G_scaled M_STAR 2 dt initialStar initialPlanet =
         stepOrbitDirect G_scaled M_STAR dt initialStar initialPlanet) := by
  have hm : (0 : ℝ) < 2 := by norm_num
  have hd : 1 ≤ planetDist initialStar initialPlanet := by
    rw [planetDist_initial]; norm_num
  exact ⟨⟨hm, hd⟩,
    step_independent_of_planet_mass G_scaled M_STAR 2 dt initialStar initialPlanet hm hd⟩

/-- C5: reset is idempotent: from either run-control state, a second
resetOrbit produces exactly the state of the first -- Stopped, the body
at its fixed initial position and velocity, and an empty trail -- in both
variants. -/
theorem reset_idempotent (s2 : SimState2) (s3 : Gravity3D.SimState3) :
    resetOrbit (resetOrbit s2) = resetOrbit s2
    ∧ Gravity3D.resetOrbit (Gravity3D.resetOrbit s3) = Gravity3D.resetOrbit s3
    ∧ (resetOrbit s2).running = false
    ∧ (resetOrbit s2).planet = initialPlanet
    ∧ (resetOrbit s2).orbitPath = []
    ∧ (Gravity3D.resetOrbit s3).running = false
    ∧ (Gravity3D.resetOrbit s3).planet = Gravity3D.initialPlanet3
    ∧ (Gravity3D.resetOrbit s3).orbitPoints = [] :=
  ⟨rfl, rfl, rfl, rfl, rfl, rfl, rfl, rfl⟩

/-- C6, demonstration of the divergence: at a running 2-D state whose
planet lies on the star, the step signals the proximity condition and
updateOrbit duly calls stopOrbit, but gameLoop (gravity.js line 180)
unconditionally re-requests the next animation frame afterwards, so the
completed tick leaves the state bit-for-bit unchanged and still Running:
the driver keeps invoking the step every subsequent frame, and only an
explicit stop or reset actually halts it.  The 3-D variant requests the
next frame before updatePhysics, so there the collision branch cancels
that request and the tick really ends Stopped. -/
theorem gameLoop_keeps_running_after_proximity :
    stepOrbit collidedState2.star collidedState2.planet = .error .proximity
    ∧ frame collidedState2 = collidedState2
    ∧ (frame collidedState2).running = true
    ∧ (Gravity3D.frame Gravity3D.collidedState3).running = false := by
  have herr : stepOrbit collidedState2.star collidedState2.planet = .error .proximity := by
    simp only [collidedState2, stepOrbit, stepOrbitP]
    rw [if_pos]
    norm_num [Real.sqrt_zero]
  have hframe : frame collidedState2 = collidedState2 := by
    have hrun : collidedState2.running = true := rfl
    simp only [frame, hrun, if_true, gameLoop, updateOrbit, herr, stopOrbit]
    rfl
  have herr3 : Gravity3D.updatePhysicsStep Gravity3D.collidedState3.starPos
      Gravity3D.collidedState3.planet = .error .proximity := by
    simp only [Gravity3D.collidedState3, Gravity3D.updatePhysicsStep, Gravity3D.Vec3.sub,
      Gravity3D.Vec3.lengthSq]
    rw [if_pos]
    norm_num
  refine ⟨herr, hframe, by rw [hframe]; rfl, ?_⟩
  have hrun3 : Gravity3D.collidedState3.running = true := rfl
  simp only [Gravity3D.frame, hrun3, if_true, Gravity3D.animate, Gravity3D.updateVisuals,
    Gravity3D.updatePhysics]
  rw [show ({ Gravity3D.collidedState3 with running := true } : Gravity3D.SimState3)
      = Gravity3D.collidedState3 from rfl, herr3]
  rfl

theorem updateOrbit_path_le (s : SimState2) (h : s.orbitPath.length ≤ 1000) :
    (updateOrbit s).orbitPath.length ≤ 1000 := by
  unfold updateOrbit
  split
  · exact h
  · exact pushTrail_length_le s.orbitPath _ h

theorem frame_path_le (s : SimState2) (h : s.orbitPath.length ≤ 1000) :
    (frame s).orbitPath.length ≤ 1000 := by
  unfold frame
  split
  · exact updateOrbit_path_le s h
  · exact h

theorem frame_iter_path_le (s : SimState2) (h : s.orbitPath.length ≤ 1000) (n : ℕ) :
    (frame^[n] s).orbitPath.length ≤ 1000 := by
  induction n with
  | zero => simpa using h
  | succ n ih =>
      rw [Function.iterate_succ_apply']
      exact frame_path_le _ ih

theorem updatePhysics_points_eq (s : Gravity3D.SimState3) :
    (Gravity3D.updatePhysics s).orbitPoints = s.orbitPoints := by
  unfold Gravity3D.updatePhysics
  split
  · rfl
  · rfl

theorem animate_points_le (s : Gravity3D.SimState3) (h : s.orbitPoints.length ≤ 1000) :
    (Gravity3D.animate s).orbitPoints.length ≤ 1000 := by
  unfold Gravity3D.animate Gravity3D.updateVisuals
  rw [updatePhysics_points_eq]
  exact pushTrail3_length_le _ _ h

theorem frame3_points_le (s : Gravity3D.SimState3) (h : s.orbitPoints.length ≤ 1000) :
    (Gravity3D.frame s).orbitPoints.length ≤ 1000 := by
  unfold Gravity3D.frame
  split
  · exact animate_points_le _ h
  · exact h

theorem frame3_iter_points_le (s : Gravity3D.SimState3) (h : s.orbitPoints.length ≤ 1000)
    (n : ℕ) : (Gravity3D.frame^[n] s).orbitPoints.length ≤ 1000 := by
  induction n with
  | zero => simpa using h
  | succ n ih =>
      rw [Function.iterate_succ_apply']
      exact frame3_points_le _ ih

/-- C7: the trail never exceeds its capacity of 1000 points: a push from
any state within the bound stays within it, reset leaves the cleared
(empty) trail within it, and any number of driver ticks after a reset
stays within it, in both variants. -/
theorem trail_length_invariant (s2 : SimState2) (s3 : Gravity3D.SimState3) (n : ℕ)
    (path : List Vec2) (pt : Vec2)
    (path3 : List Gravity3D.Vec3) (pt3 : Gravity3D.Vec3)
    (h : path.length ≤ 1000) (h3 : path3.length ≤ 1000) :
    (pushTrail path pt).length ≤ 1000
    ∧ (Gravity3D.pushTrail3 path3 pt3).length ≤ 1000
    ∧ (resetOrbit s2).orbitPath.length ≤ 1000
    ∧ (Gravity3D.resetOrbit s3).orbitPoints.length ≤ 1000
    ∧ (frame^[n] (resetOrbit s2)).orbitPath.length ≤ 1000
    ∧ (Gravity3D.frame^[n] (Gravity3D.resetOrbit s3)).orbitPoints.length ≤ 1000 :=
  ⟨pushTrail_length_le path pt h, pushTrail3_length_le path3 pt3 h3,
    by simp [resetOrbit, stopOrbit],
    by simp [Gravity3D.resetOrbit, Gravity3D.stopOrbit],
    frame_iter_path_le _ (by simp [resetOrbit, stopOrbit]) n,
    frame3_iter_points_le _ (by simp [Gravity3D.resetOrbit, Gravity3D.stopOrbit]) n⟩

/-- Witness for C7 with empty trails, the collided concrete states and
three driver ticks. -/
theorem trail_length_invariant_witness :
    (([] : List Vec2).length ≤ 1000 ∧ ([] : List Gravity3D.Vec3).length ≤ 1000)
    ∧ ((pushTrail [] (⟨0, 0⟩ : Vec2)).length ≤ 1000
       ∧ (Gravity3D.pushTrail3 [] (⟨0, 0, 0⟩ : Gravity3D.Vec3)).length ≤ 1000
       ∧ (resetOrbit collidedState2).orbitPath.length ≤ 1000
       ∧ (Gravity3D.resetOrbit Gravity3D.collidedState3).orbitPoints.length ≤ 1000
       ∧ (frame^[3] (resetOrbit collidedState2)).orbitPath.length ≤ 1000
       ∧ (Gravity3D.frame^[3]
            (Gravity3D.resetOrbit Gravity3D.collidedState3)).orbitPoints.length ≤ 1000) := by
  have h : ([] : List Vec2).length ≤ 1000 := by simp
  have h3 : ([] : List Gravity3D.Vec3).length ≤ 1000 := by simp
  exact ⟨⟨h, h3⟩,
    trail_length_invariant collidedState2 Gravity3D.collidedState3 3 [] ⟨0, 0⟩ [] ⟨0, 0, 0⟩ h h3⟩

theorem updateOrbit_star_eq (s : SimState2) : (updateOrbit s).star = s.star := by
  unfold updateOrbit
  split
  · rfl
  · rfl

theorem frame_star_eq (s : SimState2) : (frame s).star = s.star := by
  unfold frame
  split
  · exact updateOrbit_star_eq s
  · rfl

theorem frame_iter_star_eq (s : SimState2) (n : ℕ) : (frame^[n] s).star = s.star := by
  induction n with
  | zero => rfl
  | succ n ih =>
      rw [Function.iterate_succ_apply', frame_star_eq, ih]

theorem updatePhysics_starPos_eq (s : Gravity3D.SimState3) :
    (Gravity3D.updatePhysics s).starPos = s.starPos := by
  unfold Gravity3D.updatePhysics
  split
  · rfl
  · rfl

theorem frame3_starPos_eq (s : Gravity3D.SimState3) :
    (Gravity3D.frame s).starPos = s.starPos := by
  unfold Gravity3D.frame
  split
  · show (Gravity3D.animate s).starPos = s.starPos
    unfold Gravity3D.animate Gravity3D.updateVisuals
    rw [show (Gravity3D.updatePhysics { s with running := true }).starPos
        = ({ s with running := true } : Gravity3D.SimState3).starPos from
      updatePhysics_starPos_eq _]
  · rfl

theorem frame3_iter_starPos_eq (s : Gravity3D.SimState3) (n : ℕ) :
    (Gravity3D.frame^[n] s).starPos = s.starPos := by
  induction n with
  | zero => rfl
  | succ n ih =>
      rw [Function.iterate_succ_apply', frame3_starPos_eq, ih]

/-- C8: the central mass is never mutated by the integrator: its position
is identical before and after one step and after any number of driver
ticks, in both variants (the mass values M_STAR are immutable module
constants in both files and have no mutable state at all). -/
theorem central_mass_immutable (s2 : SimState2) (s3 : Gravity3D.SimState3) (n : ℕ) :
    (updateOrbit s2).star = s2.star
    ∧ (frame^[n] s2).star = s2.star
    ∧ (Gravity3D.updatePhysics s3).starPos = s3.starPos
    ∧ (Gravity3D.frame^[n] s3).starPos = s3.starPos :=
  ⟨updateOrbit_star_eq s2, frame_iter_star_eq s2 n,
    updatePhysics_starPos_eq s3, frame3_iter_starPos_eq s3 n⟩

/-- C10: startOrbit in the 2-D variant: when not running and the trail is
empty, a full reset happens first and the state then enters Running; when
not running and the trail is non-empty, it resumes from the current body
state, only setting Running; when already running it is a no-op. -/
theorem startOrbit_reset_resume (s : SimState2) :
    (s.running = false → s.orbitPath = [] →
      startOrbit s = { resetOrbit s with running := true })
    ∧ (s.running = false → s.orbitPath ≠ [] → startOrbit s = { s with running := true })
    ∧ (s.running = true → startOrbit s = s) := by
  refine ⟨?_, ?_, ?_⟩
  · intro hr hp
    simp [startOrbit, hr, hp]
  · intro hr hp
    simp [startOrbit, hr, List.length_eq_zero, hp]
  · intro hr
    simp [startOrbit, hr]

/-- Witness for C10 at three concrete states: stopped with empty trail,
stopped with a one-point trail, and running. -/
theorem startOrbit_reset_resume_witness :
    ((⟨initialPlanet, initialStar, [], false⟩ : SimState2).running = false
     ∧ (⟨initialPlanet, initialStar, [], false⟩ : SimState2).orbitPath = []
     ∧ startOrbit ⟨initialPlanet, initialStar, [], false⟩ =
         { resetOrbit (⟨initialPlanet, initialStar, [], false⟩ : SimState2) with
             running := true })
    ∧ ((⟨initialPlanet, initialStar, [⟨150, 0⟩], false⟩ : SimState2).orbitPath ≠ []
       ∧ startOrbit ⟨initialPlanet, initialStar, [⟨150, 0⟩], false⟩ =
           { (⟨initialPlanet, initialStar, [⟨150, 0⟩], false⟩ : SimState2) with
               running := true })
    ∧ startOrbit ⟨initialPlanet, initialStar, [], true⟩ =
        (⟨initialPlanet, initialStar, [], true⟩ : SimState2) :=
  ⟨⟨rfl, rfl, (startOrbit_reset_resume _).1 rfl rfl⟩,
    ⟨by simp, (startOrbit_reset_resume _).2.1 rfl (by simp)⟩,
    (startOrbit_reset_resume _).2.2 rfl⟩

end Simulations
